import Mathlib

/-!
Verification development for the SecureShare secret-sharing logic: the
cache-aside secret repository, the access-control evaluation and the
fixed-window rate limiter, shallowly embedded from the TypeScript source
(`cached-secrets` module, `redis` cache utilities, `rate-limiter`, and the
tRPC `secretRouter`).  Timestamps are epoch milliseconds as `Nat`; the
JavaScript truthiness of optional strings/numbers (where `""` and `0` are
falsy) is modelled explicitly.  Cache-backend failures on the read path and
the per-user secret-list cache are not modelled; the rate-limit counter
backend's availability is an explicit boolean.
-/

namespace SecureShare

/-- JavaScript truthiness of a `string | null | undefined` value: absent and
`""` are falsy. -/
def strTruthy : Option String → Bool
  | none => false
  | some s => if s = "" then false else true

/-- JavaScript truthiness of a `number | null | undefined` value: absent and
`0` are falsy. -/
def natTruthy : Option Nat → Bool
  | none => false
  | some n => if n = 0 then false else true

/-- The coercion `x || undefined` applied to an optional string. -/
def orUndefStr (x : Option String) : Option String :=
  if strTruthy x then x else none

/-- The coercion `x || undefined` applied to an optional number. -/
def orUndefNat (x : Option Nat) : Option Nat :=
  if natTruthy x then x else none

/-- A secret row as stored in the persistent store and as returned by the
repository (the Prisma `Secret` model / the TS `Secret` type; the unused
`salt` column is omitted). `expiresAt` is absent or an epoch-ms timestamp. -/
structure Secret where
  id : String
  title : String
  description : Option String
  content : String
  contentType : String
  fileName : Option String
  password : Option String
  expiresAt : Option Nat
  deleteAfterView : Bool
  isPublic : Bool
  maxViews : Option Nat
  currentViews : Nat
  isActive : Bool
  createdAt : Nat
  updatedAt : Nat
  createdById : String
  deriving DecidableEq, Repr

/-- The cached projection of a secret (TS `SecretMetadata`): no content, no
password, plus the derived `hasPassword` flag. -/
structure SecretMetadata where
  id : String
  title : String
  description : Option String
  contentType : String
  fileName : Option String
  expiresAt : Option Nat
  deleteAfterView : Bool
  isPublic : Bool
  maxViews : Option Nat
  currentViews : Nat
  isActive : Bool
  createdAt : Nat
  updatedAt : Nat
  createdById : String
  hasPassword : Bool
  deriving DecidableEq, Repr

/-- Model of `dbSecretToMetadata` from the cached-secrets module: the `|| undefined`
coercions on `description`, `fileName` and `maxViews`, and
`hasPassword = !!secret.password`. -/
def dbSecretToMetadata (secret : Secret) : SecretMetadata :=
  { id := secret.id
    title := secret.title
    description := orUndefStr secret.description
    contentType := secret.contentType
    fileName := orUndefStr secret.fileName
    expiresAt := secret.expiresAt
    deleteAfterView := secret.deleteAfterView
    isPublic := secret.isPublic
    maxViews := orUndefNat secret.maxViews
    currentViews := secret.currentViews
    isActive := secret.isActive
    createdAt := secret.createdAt
    updatedAt := secret.updatedAt
    createdById := secret.createdById
    hasPassword := strTruthy secret.password }

/-- The composite `{...cachedMetadata, content, password: undefined}` built by
`getCachedSecret` on a cache hit. -/
def metadataToSecret (m : SecretMetadata) (content : String) : Secret :=
  { id := m.id
    title := m.title
    description := m.description
    content := content
    contentType := m.contentType
    fileName := m.fileName
    password := none
    expiresAt := m.expiresAt
    deleteAfterView := m.deleteAfterView
    isPublic := m.isPublic
    maxViews := m.maxViews
    currentViews := m.currentViews
    isActive := m.isActive
    createdAt := m.createdAt
    updatedAt := m.updatedAt
    createdById := m.createdById }

/-- One row of the `AccessLog` table. -/
structure AccessLog where
  secretId : String
  userId : Option String
  ipAddress : String
  userAgent : String
  accessedAt : Nat
  deriving DecidableEq, Repr

/-- One analytics entry written through `analyticsCache.logAccess` (the
timestamp and user-agent metadata are not tracked here). -/
structure AnalyticsEntry where
  secretId : String
  userId : Option String
  action : String
  ipAddress : Option String
  deriving DecidableEq, Repr

/-- The state of the store and cache for one secret id: the persistent row (if
any), the two independent cache keys `secret:meta:<id>` and
`secret:content:<id>`, the access-log table and the analytics entries. -/
structure SState where
  db : Option Secret
  cacheMeta : Option SecretMetadata
  cacheContent : Option String
  dbLogs : List AccessLog
  analytics : List AnalyticsEntry
  deriving DecidableEq, Repr

/-- A Redis counter value together with its expiry time (epoch ms), when one
was set. -/
structure Counter where
  count : Nat
  expireAt : Option Nat
  deriving DecidableEq, Repr

/-- The rate-limit counter backend: an association of Redis keys to counters. -/
abbrev CounterStore := List (String × Counter)

/-- Raw lookup of a counter key (expiry not considered). -/
def lookupCounter : CounterStore → String → Option Counter
  | [], _ => none
  | (k, c) :: rest, key => if k = key then some c else lookupCounter rest key

/-- Store a counter under a key, replacing any previous value. -/
def setCounter : CounterStore → String → Counter → CounterStore
  | [], key, c => [(key, c)]
  | (k, c0) :: rest, key, c =>
      if k = key then (key, c) :: rest else (k, c0) :: setCounter rest key c

/-- Redis lazy expiry: a counter whose expiry time has been reached behaves as
absent. -/
def liveAt (now : Nat) : Option Counter → Option Counter
  | some c =>
      match c.expireAt with
      | some t => if now < t then some c else none
      | none => some c
  | none => none

/-- The count of a possibly-absent counter (absent counts as 0). -/
def countOf : Option Counter → Nat
  | some c => c.count
  | none => 0

/-- The expiry of a possibly-absent counter. -/
def expireAtOf : Option Counter → Option Nat
  | some c => c.expireAt
  | none => none

/-- Model of `redis.incr`: increment (an absent or expired key restarts at 1), keeping
the previous expiry of a live key. -/
def redisIncr (ctr : CounterStore) (key : String) (now : Nat) :
    Nat × CounterStore :=
  (countOf (liveAt now (lookupCounter ctr key)) + 1,
   setCounter ctr key
     { count := countOf (liveAt now (lookupCounter ctr key)) + 1
       expireAt := expireAtOf (liveAt now (lookupCounter ctr key)) })

/-- Model of `redis.expire`: set the expiry of an existing key to `ttlSeconds` from
now. -/
def redisExpire (ctr : CounterStore) (key : String) (ttlSeconds now : Nat) :
    CounterStore :=
  match lookupCounter ctr key with
  | some c => setCounter ctr key { c with expireAt := some (now + ttlSeconds * 1000) }
  | none => ctr

/-- Model of `cacheIncr` from the redis utilities: increment a counter and, when a
truthy TTL was given and the post-increment count is 1, set the key's expiry;
a backend failure is caught and reported as count 0 (`fails` models the
backend being unavailable). -/
def cacheIncr (ctr : CounterStore) (fails : Bool) (key : String)
    (ttl : Option Nat) (now : Nat) : Nat × CounterStore :=
  if fails then (0, ctr)
  else
    match redisIncr ctr key now with
    | (result, ctr1) =>
        if natTruthy ttl = true ∧ result = 1 then
          (result, redisExpire ctr1 key (ttl.getD 0) now)
        else (result, ctr1)

/-- The result record of `rateLimitCache.checkLimit`. -/
structure RateLimitCheck where
  allowed : Bool
  remaining : Nat
  resetTime : Nat
  deriving DecidableEq, Repr

/-- Model of `rateLimitCache.checkLimit`: increment the `rate_limit:`-prefixed counter
with the window as TTL, then report `allowed = (count <= limit)`,
`remaining = max 0 (limit - count)` and `resetTime = now + windowSeconds *
1000`. -/
def checkLimit (ctr : CounterStore) (fails : Bool) (identifier : String)
    (limit windowSeconds now : Nat) : RateLimitCheck × CounterStore :=
  match cacheIncr ctr fails ("rate_limit:" ++ identifier) (some windowSeconds) now with
  | (current, ctr1) =>
      ({ allowed := decide (current ≤ limit)
         remaining := limit - current
         resetTime := now + windowSeconds * 1000 }, ctr1)

/-- The result record of `checkRateLimit` in the rate-limiter module. -/
structure RateLimitResult where
  success : Bool
  limit : Nat
  remaining : Nat
  resetTime : Nat
  retryAfter : Option Nat
  deriving DecidableEq, Repr

/-- Model of `checkRateLimit` from the rate-limiter module: floor the window to
seconds, build the `rate_limit:<identifier>` key (which `checkLimit` prefixes
again), and translate the check into a `RateLimitResult`. -/
def checkRateLimit (ctr : CounterStore) (fails : Bool) (identifier : String)
    (requests windowMs now : Nat) : RateLimitResult × CounterStore :=
  match checkLimit ctr fails ("rate_limit:" ++ identifier) requests (windowMs / 1000) now with
  | (r, ctr1) =>
      ({ success := r.allowed
         limit := requests
         remaining := r.remaining
         resetTime := r.resetTime
         retryAfter := if r.allowed then none else some (windowMs / 1000 * 1000) }, ctr1)

/-- The expiry check `secret.expiresAt && now > secret.expiresAt` shared by
the router's `getById` and by `accessCachedSecret` (a Date object is truthy
whenever present). -/
def jsExpired (secret : Secret) (now : Nat) : Bool :=
  match secret.expiresAt with
  | some t => decide (now > t)
  | none => false

/-- The view-limit check `secret.maxViews && secret.currentViews >=
secret.maxViews` (a `maxViews` of 0 is falsy and disables the check). -/
def jsViewLimit (secret : Secret) : Bool :=
  match secret.maxViews with
  | some m => if m = 0 then false else decide (secret.currentViews ≥ m)
  | none => false

/-- The password check `secret.password && password !== secret.password`
(an empty stored password is falsy and disables the check; an absent supplied
password never strictly equals a present stored one). -/
def jsBadPassword (secret : Secret) (password : Option String) : Bool :=
  match secret.password with
  | some p => if p = "" then false else decide (password ≠ some p)
  | none => false

/-- The cached-content value `getCachedSecret` works with: content is only
fetched from the cache when it was requested. -/
def cachedContentOf (s : SState) (includeContent : Bool) : Option String :=
  if includeContent then s.cacheContent else none

/-- The database branch of `getCachedSecret`: read the row from the
persistent store, and on a hit cache the derived metadata and the content
under their two separate keys; the full row (password included) is
returned. -/
def fetchAndCacheSecret (s : SState) : Option Secret × SState :=
  match s.db with
  | none => (none, s)
  | some secret =>
      (some secret,
       { s with
           cacheMeta := some (dbSecretToMetadata secret)
           cacheContent := some secret.content })

/-- Model of `getCachedSecret`: serve from the cache when the metadata (and, when
requested, a truthy content value) is cached — with the password stripped to
`undefined` — and fall back to the persistent store otherwise. -/
def getCachedSecret (s : SState) (includeContent : Bool) :
    Option Secret × SState :=
  match s.cacheMeta with
  | some cachedMetadata =>
      if !includeContent || strTruthy (cachedContentOf s includeContent) then
        (some (metadataToSecret cachedMetadata ((cachedContentOf s includeContent).getD "")), s)
      else fetchAndCacheSecret s
  | none => fetchAndCacheSecret s

/-- The denial and failure conditions of `accessCachedSecret`, one per thrown
error message. -/
inductive AccessError where
  | rateLimited
  | notFound
  | expired
  | viewLimitReached
  | inactive
  | invalidPassword
  | updateFailed
  deriving DecidableEq, Repr

/-- The value returned by `accessCachedSecret` on a grant. -/
structure AccessGrant where
  secret : Secret
  shouldDeleteAfterView : Bool
  deriving DecidableEq, Repr

/-- Decide whether an `accessCachedSecret` outcome is a grant. -/
def isGrant : Except AccessError AccessGrant → Bool
  | .ok _ => true
  | .error _ => false

/-- The `updatedMetadata` literal built by `accessCachedSecret` after the view
increment: every field is taken from the loaded secret object except
`currentViews`, which takes the freshly incremented store value. -/
def updatedMetadata (secret : Secret) (views : Nat) : SecretMetadata :=
  { id := secret.id
    title := secret.title
    description := secret.description
    contentType := secret.contentType
    fileName := secret.fileName
    expiresAt := secret.expiresAt
    deleteAfterView := secret.deleteAfterView
    isPublic := secret.isPublic
    maxViews := secret.maxViews
    currentViews := views
    isActive := secret.isActive
    createdAt := secret.createdAt
    updatedAt := secret.updatedAt
    createdById := secret.createdById
    hasPassword := strTruthy secret.password }

/-- Model of `accessCachedSecret`: rate-limit by IP (the `viewSecret` policy: 50
requests per 3600000 ms window), load the secret through the cache-aside read
path with content, run the four ordered checks on the loaded object, and on a
grant persist the view increment, refresh the cached metadata, append an
access-log row and a `view` analytics entry, and — for a one-time-view
secret — deactivate the row and drop both cache keys.  A store update on a
missing row surfaces as `updateFailed`. -/
def accessCachedSecret (s : SState) (ctr : CounterStore) (fails : Bool)
    (secretId ipAddress userAgent : String) (userId password : Option String)
    (now : Nat) : Except AccessError AccessGrant × SState × CounterStore :=
  match checkRateLimit ctr fails ("ip:" ++ ipAddress) 50 3600000 now with
  | (rlr, ctr1) =>
      if rlr.success then
        match getCachedSecret s true with
        | (none, s1) => (.error .notFound, s1, ctr1)
        | (some secret, s1) =>
            if jsExpired secret now then (.error .expired, s1, ctr1)
            else if jsViewLimit secret then (.error .viewLimitReached, s1, ctr1)
            else if secret.isActive = false then (.error .inactive, s1, ctr1)
            else if jsBadPassword secret password then (.error .invalidPassword, s1, ctr1)
            else
              match s1.db with
              | none => (.error .updateFailed, s1, ctr1)
              | some dbRow =>
                  (.ok { secret := { secret with currentViews := dbRow.currentViews + 1 }
                         shouldDeleteAfterView := secret.deleteAfterView },
                   (if secret.deleteAfterView then
                      { s1 with
                          db := some { dbRow with currentViews := dbRow.currentViews + 1, isActive := false }
                          cacheMeta := none
                          cacheContent := none
                          dbLogs := s1.dbLogs ++ [{ secretId := secretId, userId := userId,
                                                    ipAddress := ipAddress, userAgent := userAgent,
                                                    accessedAt := now }]
                          analytics := s1.analytics ++ [{ secretId := secretId, userId := userId,
                                                          action := "view",
                                                          ipAddress := some ipAddress }] }
                    else
                      { s1 with
                          db := some { dbRow with currentViews := dbRow.currentViews + 1 }
                          cacheMeta := some (updatedMetadata secret (dbRow.currentViews + 1))
                          dbLogs := s1.dbLogs ++ [{ secretId := secretId, userId := userId,
                                                    ipAddress := ipAddress, userAgent := userAgent,
                                                    accessedAt := now }]
                          analytics := s1.analytics ++ [{ secretId := secretId, userId := userId,
                                                          action := "view",
                                                          ipAddress := some ipAddress }] }),
                   ctr1)
      else (.error .rateLimited, s, ctr1)

/-- The error conditions of the public `secretRouter.getById` query. -/
inductive GetByIdError where
  | notFound
  | expired
  | maxViewsReached
  | notActive
  deriving DecidableEq, Repr

/-- Model of `secretRouter.getById`: a public query that looks the row up, applies the
expiry, view-limit and active checks (no password parameter exists), and
returns the complete stored row. -/
def getById (db : Option Secret) (now : Nat) : Except GetByIdError Secret :=
  match db with
  | none => .error .notFound
  | some secret =>
      if jsExpired secret now then .error .expired
      else if jsViewLimit secret then .error .maxViewsReached
      else if secret.isActive = false then .error .notActive
      else .ok secret

/-- The failure condition of the public `secretRouter.logAccess` mutation: the
Prisma update throws when the row is missing. -/
inductive LogAccessError where
  | updateFailed
  deriving DecidableEq, Repr

/-- Model of `secretRouter.logAccess`: a public mutation that increments
`currentViews`, appends an access-log row (it has no user id input), and
deactivates the row when `deleteAfterView` is set — with no access-control
checks of any kind. -/
def logAccess (s : SState) (secretId ipAddress userAgent : String)
    (now : Nat) : Except LogAccessError Unit × SState :=
  match s.db with
  | none => (.error .updateFailed, s)
  | some secret =>
      let incremented : Secret := { secret with currentViews := secret.currentViews + 1 }
      (.ok (),
       { s with
           db := some (if incremented.deleteAfterView then
                         { incremented with isActive := false }
                       else incremented)
           dbLogs := s.dbLogs ++ [{ secretId := secretId, userId := none,
                                    ipAddress := ipAddress, userAgent := userAgent,
                                    accessedAt := now }] })

/-- The input record of `createCachedSecret` (TS `CacheCreateSecretInput`). -/
structure CacheCreateSecretInput where
  title : String
  description : Option String
  content : String
  contentType : Option String
  fileName : Option String
  password : Option String
  expiresAt : Option Nat
  deleteAfterView : Option Bool
  isPublic : Option Bool
  maxViews : Option Nat
  deriving DecidableEq, Repr

/-- The error conditions of `createCachedSecret`. -/
inductive CreateError where
  | rateLimited
  deriving DecidableEq, Repr

/-- Model of `createCachedSecret`: rate-limit by user (the `createSecret` policy: 10
requests per 3600000 ms window), persist the new row with `currentViews = 0`
and `isActive = true` (defaulting `contentType`, `deleteAfterView` and
`isPublic` by truthiness), cache metadata and content, and append a `create`
analytics entry.  The generated row id and the creation timestamp are
parameters. -/
def createCachedSecret (s : SState) (ctr : CounterStore) (fails : Bool)
    (userId : String) (input : CacheCreateSecretInput) (ipAddress : String)
    (newId : String) (now : Nat) :
    Except CreateError Secret × SState × CounterStore :=
  match checkRateLimit ctr fails ("user:" ++ userId) 10 3600000 now with
  | (rlr, ctr1) =>
      if rlr.success then
        let secret : Secret :=
          { id := newId
            title := input.title
            description := input.description
            content := input.content
            contentType := (orUndefStr input.contentType).getD "TEXT"
            fileName := input.fileName
            password := input.password
            expiresAt := input.expiresAt
            deleteAfterView := (input.deleteAfterView).getD false
            isPublic := (input.isPublic).getD false
            maxViews := input.maxViews
            currentViews := 0
            isActive := true
            createdAt := now
            updatedAt := now
            createdById := userId }
        (.ok secret,
         { s with
             db := some secret
             cacheMeta := some (dbSecretToMetadata secret)
             cacheContent := some secret.content
             analytics := s.analytics ++ [{ secretId := newId, userId := some userId,
                                            action := "create",
                                            ipAddress := some ipAddress }] },
         ctr1)
      else (.error .rateLimited, s, ctr1)

/-- The error conditions of `deleteCachedSecret` and `updateCachedSecret`:
a missing row and a foreign owner raise the one combined error, and a store
update on a row that vanished after the ownership check surfaces
separately. -/
inductive OwnerOpError where
  | notFoundOrUnauthorized
  | updateFailed
  deriving DecidableEq, Repr

/-- Model of `deleteCachedSecret`: load through the cache-aside path without content,
require ownership (a missing secret and a foreign owner raise the same
error), then soft-delete the row, drop both cache keys and append a `delete`
analytics entry. -/
def deleteCachedSecret (s : SState) (secretId userId : String) :
    Except OwnerOpError Bool × SState :=
  match getCachedSecret s false with
  | (none, s1) => (.error .notFoundOrUnauthorized, s1)
  | (some secret, s1) =>
      if secret.createdById ≠ userId then (.error .notFoundOrUnauthorized, s1)
      else
        match s1.db with
        | none => (.error .updateFailed, s1)
        | some row =>
            (.ok true,
             { s1 with
                 db := some { row with isActive := false }
                 cacheMeta := none
                 cacheContent := none
                 analytics := s1.analytics ++ [{ secretId := secretId, userId := some userId,
                                                 action := "delete",
                                                 ipAddress := none }] })

/-- The partial update record of `updateCachedSecret`
(`Partial<CacheCreateSecretInput>`): absent fields are left unchanged. -/
structure SecretUpdates where
  title : Option String
  description : Option String
  content : Option String
  contentType : Option String
  fileName : Option String
  password : Option String
  expiresAt : Option Nat
  deleteAfterView : Option Bool
  isPublic : Option Bool
  maxViews : Option Nat
  deriving DecidableEq, Repr

/-- Apply a Prisma partial update to a row (present fields overwrite; the
`updatedAt` column is refreshed). -/
def applyUpdates (row : Secret) (u : SecretUpdates) (now : Nat) : Secret :=
  { row with
      title := u.title.getD row.title
      description := match u.description with | some d => some d | none => row.description
      content := u.content.getD row.content
      contentType := u.contentType.getD row.contentType
      fileName := match u.fileName with | some f => some f | none => row.fileName
      password := match u.password with | some p => some p | none => row.password
      expiresAt := match u.expiresAt with | some t => some t | none => row.expiresAt
      deleteAfterView := u.deleteAfterView.getD row.deleteAfterView
      isPublic := u.isPublic.getD row.isPublic
      maxViews := match u.maxViews with | some m => some m | none => row.maxViews
      updatedAt := now }

/-- Model of `updateCachedSecret`: load through the cache-aside path without content,
require ownership (a missing secret and a foreign owner raise the same
error), then persist the partial update, refresh the cached metadata, refresh
the cached content only when a truthy content update was supplied, and append
an `update` analytics entry. -/
def updateCachedSecret (s : SState) (secretId userId : String)
    (updates : SecretUpdates) (now : Nat) :
    Except OwnerOpError Secret × SState :=
  match getCachedSecret s false with
  | (none, s1) => (.error .notFoundOrUnauthorized, s1)
  | (some existingSecret, s1) =>
      if existingSecret.createdById ≠ userId then (.error .notFoundOrUnauthorized, s1)
      else
        match s1.db with
        | none => (.error .updateFailed, s1)
        | some row =>
            (.ok (applyUpdates row updates now),
             { s1 with
                 db := some (applyUpdates row updates now)
                 cacheMeta := some (dbSecretToMetadata (applyUpdates row updates now))
                 cacheContent := if strTruthy updates.content then updates.content
                                 else s1.cacheContent
                 analytics := s1.analytics ++ [{ secretId := secretId, userId := some userId,
                                                 action := "update",
                                                 ipAddress := none }] })

theorem lookup_setCounter (ctr : CounterStore) (key : String) (c : Counter) :
    lookupCounter (setCounter ctr key c) key = some c := by
  induction ctr with
  | nil => simp [setCounter, lookupCounter]
  | cons hd tl ih =>
      obtain ⟨k, c0⟩ := hd
      by_cases h : k = key
      · simp [setCounter, lookupCounter, h]
      · simp [setCounter, lookupCounter, h, ih]

/-- C5: every successful `checkLimit(key, limit, windowSeconds)` call
increments the counter for the (twice-prefixed) key, sets the counter's
expiry to the window only when the post-increment count is 1, and returns
`allowed = (count <= limit)`, `remaining = max 0 (limit - count)` and a
`resetTime` recomputed as `now + windowSeconds * 1000` on every call rather
than the counter's stored expiry. -/
theorem checkLimit_fixed_window (ctr : CounterStore) (ident : String)
    (limit windowSeconds now : Nat) (hw : 0 < windowSeconds) :
    (checkLimit ctr false ident limit windowSeconds now).fst =
      { allowed := decide (countOf (liveAt now (lookupCounter ctr ("rate_limit:" ++ ident))) + 1 ≤ limit)
        remaining := limit - (countOf (liveAt now (lookupCounter ctr ("rate_limit:" ++ ident))) + 1)
        resetTime := now + windowSeconds * 1000 }
    ∧ lookupCounter (checkLimit ctr false ident limit windowSeconds now).snd ("rate_limit:" ++ ident) =
        some { count := countOf (liveAt now (lookupCounter ctr ("rate_limit:" ++ ident))) + 1
               expireAt :=
                 if countOf (liveAt now (lookupCounter ctr ("rate_limit:" ++ ident))) + 1 = 1 then
                   some (now + windowSeconds * 1000)
                 else expireAtOf (liveAt now (lookupCounter ctr ("rate_limit:" ++ ident))) } := by
  have hnt : natTruthy (some windowSeconds) = true := by
    simp [natTruthy, Nat.pos_iff_ne_zero.mp hw]
  by_cases h1 : countOf (liveAt now (lookupCounter ctr ("rate_limit:" ++ ident))) + 1 = 1
  · constructor
    · simp [checkLimit, cacheIncr, redisIncr, hnt, h1]
    · simp only [checkLimit, cacheIncr, redisIncr, hnt, h1, if_pos, and_true, true_and]
      simp only [redisExpire, lookup_setCounter]
      simp [lookup_setCounter, h1]
  · constructor
    · simp [checkLimit, cacheIncr, redisIncr, hnt, h1]
    · simp [checkLimit, cacheIncr, redisIncr, hnt, h1, lookup_setCounter]

theorem checkLimit_fixed_window_witness :
    (checkLimit [] false "ip:1.2.3.4" 5 60 1000).fst.resetTime = 61000
    ∧ lookupCounter (checkLimit [] false "ip:1.2.3.4" 5 60 1000).snd "rate_limit:ip:1.2.3.4"
        = some { count := 1, expireAt := some 61000 } := by
  have h := checkLimit_fixed_window [] "ip:1.2.3.4" 5 60 1000 (by decide)
  exact ⟨by rw [h.1], h.2⟩

/-- C6: when the counter backend fails, the limiter reports the request as
allowed (fails open) — both at the `rateLimitCache.checkLimit` level, where
the caught failure surfaces as count 0, and through the rate-limiter module's
`checkRateLimit`; the counter store is left untouched. -/
theorem rate_limiter_fails_open (ctr : CounterStore) (ident : String)
    (limit windowSeconds requests windowMs now : Nat) :
    (checkLimit ctr true ident limit windowSeconds now).fst.allowed = true
    ∧ (checkLimit ctr true ident limit windowSeconds now).snd = ctr
    ∧ (checkRateLimit ctr true ident requests windowMs now).fst.success = true := by
  refine ⟨by simp [checkLimit, cacheIncr], by simp [checkLimit, cacheIncr], ?_⟩
  simp [checkRateLimit, checkLimit, cacheIncr]

/-- C3: for every stored secret that is active, not expired and below its
view limit, the public `getById` query returns the complete stored row —
content and stored plaintext password included — to any caller; the query has
no password parameter, so nothing is required, checked or redacted. -/
theorem getById_returns_full_record (secret : Secret) (now : Nat)
    (hexp : jsExpired secret now = false) (hviews : jsViewLimit secret = false)
    (hactive : secret.isActive = true) :
    getById (some secret) now = .ok secret := by
  simp [getById, hexp, hviews, hactive]

def w3row : Secret :=
  { id := "s3", title := "t3", description := none, content := "top-secret",
    contentType := "TEXT", fileName := none, password := some "hunter2",
    expiresAt := some 1000, deleteAfterView := false, isPublic := false,
    maxViews := some 3, currentViews := 2, isActive := true,
    createdAt := 0, updatedAt := 0, createdById := "u1" }

theorem getById_returns_full_record_witness :
    getById (some w3row) 5 = .ok w3row ∧ w3row.password = some "hunter2" :=
  ⟨getById_returns_full_record w3row 5 (by decide) (by decide) rfl, rfl⟩

/-- C10: the public `logAccess` mutation, on any existing row and for any
caller, increments `currentViews` by 1 and appends an access-log entry
without evaluating any of the expiry, view-limit, active or password checks
(the row's flags are arbitrary here), and additionally deactivates the row
when `deleteAfterView` is set. -/
theorem logAccess_unconditional (s : SState) (secret : Secret)
    (secretId ip ua : String) (now : Nat) (h : s.db = some secret) :
    (logAccess s secretId ip ua now).fst = .ok ()
    ∧ (logAccess s secretId ip ua now).snd.db =
        some (if secret.deleteAfterView then
                { secret with currentViews := secret.currentViews + 1, isActive := false }
              else { secret with currentViews := secret.currentViews + 1 })
    ∧ (logAccess s secretId ip ua now).snd.dbLogs =
        s.dbLogs ++ [{ secretId := secretId, userId := none, ipAddress := ip,
                       userAgent := ua, accessedAt := now }] := by
  cases hD : secret.deleteAfterView <;> simp [logAccess, h, hD]

def w10row : Secret :=
  { id := "sa", title := "ta", description := none, content := "ca",
    contentType := "TEXT", fileName := none, password := some "pw",
    expiresAt := some 10, deleteAfterView := true, isPublic := false,
    maxViews := some 1, currentViews := 7, isActive := false,
    createdAt := 0, updatedAt := 0, createdById := "u1" }

def w10state : SState :=
  { db := some w10row, cacheMeta := none, cacheContent := none,
    dbLogs := [], analytics := [] }

theorem logAccess_unconditional_witness :
    (logAccess w10state "sa" "ip" "ua" 99).fst = .ok ()
    ∧ (logAccess w10state "sa" "ip" "ua" 99).snd.db =
        some { w10row with currentViews := 8, isActive := false } := by
  have h := logAccess_unconditional w10state w10row "sa" "ip" "ua" 99 rfl
  exact ⟨h.1, h.2.1⟩

/-- C7: an update or delete call on a nonexistent secret id (no store row and
no cached metadata) and an update or delete call by a non-owner on an
existing secret fail with the same combined `notFoundOrUnauthorized` error,
so a caller cannot distinguish a foreign secret from a missing one. -/
theorem owner_ops_uniform_error (s : SState) (secretId userId : String)
    (updates : SecretUpdates) (now : Nat)
    (h : (s.db = none ∧ s.cacheMeta = none)
         ∨ ∃ sec, (getCachedSecret s false).fst = some sec ∧ sec.createdById ≠ userId) :
    (deleteCachedSecret s secretId userId).fst = .error .notFoundOrUnauthorized
    ∧ (updateCachedSecret s secretId userId updates now).fst = .error .notFoundOrUnauthorized := by
  rcases h with ⟨hdb, hmeta⟩ | ⟨sec, hsec, hown⟩
  · constructor <;>
      simp [deleteCachedSecret, updateCachedSecret, getCachedSecret,
            fetchAndCacheSecret, hdb, hmeta]
  · rcases hg : getCachedSecret s false with ⟨osec, s1⟩
    rw [hg] at hsec
    simp only at hsec
    subst hsec
    constructor <;> simp [deleteCachedSecret, updateCachedSecret, hg, hown]

def w7row : Secret :=
  { id := "s7", title := "t7", description := none, content := "c7",
    contentType := "TEXT", fileName := none, password := none,
    expiresAt := none, deleteAfterView := false, isPublic := false,
    maxViews := none, currentViews := 0, isActive := true,
    createdAt := 0, updatedAt := 0, createdById := "owner" }

def w7state : SState :=
  { db := some w7row, cacheMeta := none, cacheContent := none,
    dbLogs := [], analytics := [] }

def w7empty : SState :=
  { db := none, cacheMeta := none, cacheContent := none,
    dbLogs := [], analytics := [] }

def w7upd : SecretUpdates :=
  { title := some "new", description := none, content := none,
    contentType := none, fileName := none, password := none,
    expiresAt := none, deleteAfterView := none, isPublic := none,
    maxViews := none }

theorem owner_ops_uniform_error_witness :
    (deleteCachedSecret w7state "s7" "mallory").fst = .error .notFoundOrUnauthorized
    ∧ (updateCachedSecret w7state "s7" "mallory" w7upd 5).fst = .error .notFoundOrUnauthorized
    ∧ (deleteCachedSecret w7empty "nope" "mallory").fst = .error .notFoundOrUnauthorized
    ∧ (updateCachedSecret w7empty "nope" "mallory" w7upd 5).fst = .error .notFoundOrUnauthorized := by
  have h1 := owner_ops_uniform_error w7state "s7" "mallory" w7upd 5
    (Or.inr ⟨w7row, rfl, by decide⟩)
  have h2 := owner_ops_uniform_error w7empty "nope" "mallory" w7upd 5
    (Or.inl ⟨rfl, rfl⟩)
  exact ⟨h1.1, h1.2, h2.1, h2.2⟩

theorem accessCachedSecret_loaded (s : SState) (ctr : CounterStore) (fails : Bool)
    (secretId ip ua : String) (uid pw : Option String) (now : Nat)
    (sec : Secret) (s1 : SState)
    (hload : getCachedSecret s true = (some sec, s1))
    (hallow : (checkRateLimit ctr fails ("ip:" ++ ip) 50 3600000 now).fst.success = true) :
    (accessCachedSecret s ctr fails secretId ip ua uid pw now).fst =
      (if jsExpired sec now then .error .expired
       else if jsViewLimit sec then .error .viewLimitReached
       else if sec.isActive = false then .error .inactive
       else if jsBadPassword sec pw then .error .invalidPassword
       else match s1.db with
            | none => .error .updateFailed
            | some dbRow =>
                .ok { secret := { sec with currentViews := dbRow.currentViews + 1 }
                      shouldDeleteAfterView := sec.deleteAfterView }) := by
  rcases hc : checkRateLimit ctr fails ("ip:" ++ ip) 50 3600000 now with ⟨rlr, ctr1⟩
  rw [hc] at hallow
  simp only at hallow
  unfold accessCachedSecret
  rw [hc, hload]
  simp only [hallow, if_true]
  cases hE : jsExpired sec now <;> cases hV : jsViewLimit sec <;>
    cases hA : sec.isActive <;> cases hP : jsBadPassword sec pw <;>
    cases hdb : s1.db <;> simp [hE, hV, hA, hP, hdb]

/-- C1: for an access attempt that loads an existing secret and passes the
rate limiter, the four access-control checks are evaluated in the fixed order
expiry, view limit, active flag, password; the first failing check determines
the denial, each denial is a distinct error, and a secret whose `expiresAt`
lies in the past is denied with `expired` regardless of its view count,
active flag or password. -/
theorem access_checks_ordered (s : SState) (ctr : CounterStore) (fails : Bool)
    (secretId ip ua : String) (uid pw : Option String) (now : Nat)
    (sec : Secret) (s1 : SState)
    (hload : getCachedSecret s true = (some sec, s1))
    (hallow : (checkRateLimit ctr fails ("ip:" ++ ip) 50 3600000 now).fst.success = true) :
    ((accessCachedSecret s ctr fails secretId ip ua uid pw now).fst = .error .expired
        ↔ jsExpired sec now = true)
    ∧ ((accessCachedSecret s ctr fails secretId ip ua uid pw now).fst = .error .viewLimitReached
        ↔ (jsExpired sec now = false ∧ jsViewLimit sec = true))
    ∧ ((accessCachedSecret s ctr fails secretId ip ua uid pw now).fst = .error .inactive
        ↔ (jsExpired sec now = false ∧ jsViewLimit sec = false ∧ sec.isActive = false))
    ∧ ((accessCachedSecret s ctr fails secretId ip ua uid pw now).fst = .error .invalidPassword
        ↔ (jsExpired sec now = false ∧ jsViewLimit sec = false ∧ sec.isActive = true
            ∧ jsBadPassword sec pw = true)) := by
  rw [accessCachedSecret_loaded s ctr fails secretId ip ua uid pw now sec s1 hload hallow]
  cases hE : jsExpired sec now <;> cases hV : jsViewLimit sec <;>
    cases hA : sec.isActive <;> cases hP : jsBadPassword sec pw <;>
    cases hdb : s1.db <;> simp [hE, hV, hA, hP, hdb]

def w1row : Secret :=
  { id := "s1", title := "t1", description := none, content := "c1",
    contentType := "TEXT", fileName := none, password := some "right",
    expiresAt := some 1000, deleteAfterView := false, isPublic := false,
    maxViews := some 2, currentViews := 5, isActive := true,
    createdAt := 0, updatedAt := 0, createdById := "u1" }

def w1state : SState :=
  { db := some w1row, cacheMeta := none, cacheContent := none,
    dbLogs := [], analytics := [] }

def w1post : SState :=
  { db := some w1row, cacheMeta := some (dbSecretToMetadata w1row),
    cacheContent := some "c1", dbLogs := [], analytics := [] }

theorem access_checks_ordered_witness :
    (accessCachedSecret w1state [] false "s1" "ip" "ua" none (some "right") 2000).fst
      = .error .expired := by
  have h := access_checks_ordered w1state [] false "s1" "ip" "ua" none (some "right") 2000
    w1row w1post rfl (by decide)
  exact h.1.mpr (by decide)

theorem getCachedSecret_preserves (s : SState) (b : Bool) :
    (getCachedSecret s b).snd.db = s.db ∧ (getCachedSecret s b).snd.dbLogs = s.dbLogs := by
  unfold getCachedSecret fetchAndCacheSecret
  cases hm : s.cacheMeta <;> cases hd : s.db <;> simp [hm, hd] <;> split <;> simp [hd]

/-- C9: every denied access attempt — expired, view limit reached, inactive
or invalid password — leaves the persistent store untouched (the row, hence
its `currentViews` and `isActive`, is unchanged) and appends no access-log
row. -/
theorem denied_access_no_mutation (s : SState) (ctr : CounterStore) (fails : Bool)
    (secretId ip ua : String) (uid pw : Option String) (now : Nat) (e : AccessError)
    (h : (accessCachedSecret s ctr fails secretId ip ua uid pw now).fst = .error e)
    (_he : e = .expired ∨ e = .viewLimitReached ∨ e = .inactive ∨ e = .invalidPassword) :
    (accessCachedSecret s ctr fails secretId ip ua uid pw now).snd.fst.db = s.db
    ∧ (accessCachedSecret s ctr fails secretId ip ua uid pw now).snd.fst.dbLogs = s.dbLogs := by
  clear _he
  have hpres := getCachedSecret_preserves s true
  rcases hc : checkRateLimit ctr fails ("ip:" ++ ip) 50 3600000 now with ⟨rlr, ctr1⟩
  rcases hg : getCachedSecret s true with ⟨osec, s1⟩
  rw [hg] at hpres
  unfold accessCachedSecret at h ⊢
  rw [hc, hg] at h ⊢
  cases hs : rlr.success
  · simp [hs]
  · simp only [hs, if_true] at h ⊢
    cases osec with
    | none => simpa using hpres
    | some sec =>
        by_cases hE : jsExpired sec now = true
        · simpa [hE] using hpres
        · by_cases hV : jsViewLimit sec = true
          · simpa [hE, hV] using hpres
          · by_cases hA : sec.isActive = false
            · simpa [hE, hV, hA] using hpres
            · by_cases hP : jsBadPassword sec pw = true
              · simpa [hE, hV, hA, hP] using hpres
              · cases hdb : s1.db with
                | none =>
                    simpa [hE, hV, hA, hP, hdb] using hpres
                | some dbRow =>
                    simp [hE, hV, hA, hP, hdb] at h

def w9row : Secret :=
  { id := "s9", title := "t9", description := none, content := "c9",
    contentType := "TEXT", fileName := none, password := some "abc",
    expiresAt := none, deleteAfterView := false, isPublic := false,
    maxViews := none, currentViews := 3, isActive := true,
    createdAt := 0, updatedAt := 0, createdById := "u9" }

def w9state : SState :=
  { db := some w9row, cacheMeta := none, cacheContent := none,
    dbLogs := [], analytics := [] }

theorem denied_access_no_mutation_witness :
    (accessCachedSecret w9state [] false "s9" "ip" "ua" none (some "xyz") 7).snd.fst.db
      = some w9row
    ∧ (accessCachedSecret w9state [] false "s9" "ip" "ua" none (some "xyz") 7).snd.fst.dbLogs
      = [] := by
  have h := denied_access_no_mutation w9state [] false "s9" "ip" "ua" none (some "xyz") 7
    AccessError.invalidPassword rfl (by simp)
  exact ⟨h.1, h.2⟩

theorem inactive_db_never_grants (s : SState) (row : Secret)
    (hmeta : s.cacheMeta = none) (hdb : s.db = some row) (hact : row.isActive = false) :
    ∀ (ctr : CounterStore) (fails : Bool) (id2 ip2 ua2 : String)
      (uid2 pw2 : Option String) (now2 : Nat),
      isGrant (accessCachedSecret s ctr fails id2 ip2 ua2 uid2 pw2 now2).fst = false := by
  intro ctr fails id2 ip2 ua2 uid2 pw2 now2
  rcases hc : checkRateLimit ctr fails ("ip:" ++ ip2) 50 3600000 now2 with ⟨rlr, ctr1⟩
  have hload : getCachedSecret s true =
      (some row, { s with cacheMeta := some (dbSecretToMetadata row),
                          cacheContent := some row.content }) := by
    simp [getCachedSecret, fetchAndCacheSecret, hmeta, hdb]
  unfold accessCachedSecret
  rw [hc, hload]
  cases hs : rlr.success
  · simp [hs, isGrant]
  · simp only [hs, if_true]
    cases hE : jsExpired row now2 <;> cases hV : jsViewLimit row <;>
      simp [hE, hV, hact, isGrant]

/-- C4: every granted access persists an increment of `currentViews` by
exactly 1 and appends exactly one access-log row; when the granted secret has
`deleteAfterView` set, the same operation additionally deactivates the stored
row and removes both the metadata and the content cache entries, after which
no further access attempt on the resulting state can ever be granted (exactly
one grant is possible). -/
theorem grant_side_effects (s : SState) (ctr : CounterStore) (fails : Bool)
    (secretId ip ua : String) (uid pw : Option String) (now : Nat)
    (g : AccessGrant) (s2 : SState) (ctr2 : CounterStore)
    (h : accessCachedSecret s ctr fails secretId ip ua uid pw now = (.ok g, s2, ctr2)) :
    ∃ row : Secret, s.db = some row
      ∧ s2.dbLogs = s.dbLogs ++ [{ secretId := secretId, userId := uid, ipAddress := ip,
                                   userAgent := ua, accessedAt := now }]
      ∧ (g.shouldDeleteAfterView = false →
           s2.db = some { row with currentViews := row.currentViews + 1 })
      ∧ (g.shouldDeleteAfterView = true →
           s2.db = some { row with currentViews := row.currentViews + 1, isActive := false }
           ∧ s2.cacheMeta = none ∧ s2.cacheContent = none
           ∧ ∀ (ctr3 : CounterStore) (fails3 : Bool) (id3 ip3 ua3 : String)
               (uid3 pw3 : Option String) (now3 : Nat),
               isGrant (accessCachedSecret s2 ctr3 fails3 id3 ip3 ua3 uid3 pw3 now3).fst
                 = false) := by
  have hpres := getCachedSecret_preserves s true
  rcases hc : checkRateLimit ctr fails ("ip:" ++ ip) 50 3600000 now with ⟨rlr, ctr1⟩
  rcases hg : getCachedSecret s true with ⟨osec, s1⟩
  rw [hg] at hpres
  have hpd : s1.db = s.db := hpres.1
  have hpl : s1.dbLogs = s.dbLogs := hpres.2
  unfold accessCachedSecret at h
  rw [hc, hg] at h
  cases hs : rlr.success
  · simp [hs] at h
  · simp only [hs, if_true] at h
    cases osec with
    | none => simp at h
    | some sec =>
        by_cases hE : jsExpired sec now = true
        · simp [hE] at h
        · by_cases hV : jsViewLimit sec = true
          · simp [hE, hV] at h
          · by_cases hA : sec.isActive = false
            · simp [hE, hV, hA] at h
            · by_cases hP : jsBadPassword sec pw = true
              · simp [hE, hV, hA, hP] at h
              · cases hdb : s1.db with
                | none => simp [hE, hV, hA, hP, hdb] at h
                | some dbRow =>
                    simp only [hE, hV, hA, hP, hdb, Bool.false_eq_true, Bool.true_eq_false,
                               if_false, if_true, Prod.mk.injEq, Except.ok.injEq] at h
                    obtain ⟨hge, hs2, hctr⟩ := h
                    subst hge
                    cases hD : sec.deleteAfterView with
                    | false =>
                        simp only [hD, Bool.false_eq_true, if_false] at hs2
                        subst hs2
                        refine ⟨dbRow, hpd ▸ hdb, ?_, ?_, ?_⟩
                        · simp [hpl]
                        · intro _; rfl
                        · intro hcontra; simp [hD] at hcontra
                    | true =>
                        simp only [hD, if_true] at hs2
                        subst hs2
                        refine ⟨dbRow, hpd ▸ hdb, ?_, ?_, ?_⟩
                        · simp [hpl]
                        · intro hcontra; simp [hD] at hcontra
                        · intro _
                          refine ⟨rfl, rfl, rfl, ?_⟩
                          intro ctr3 fails3 id3 ip3 ua3 uid3 pw3 now3
                          exact inactive_db_never_grants _ _ rfl rfl rfl
                            ctr3 fails3 id3 ip3 ua3 uid3 pw3 now3

def w4row : Secret :=
  { id := "s4", title := "t4", description := none, content := "c4",
    contentType := "TEXT", fileName := none, password := none,
    expiresAt := none, deleteAfterView := true, isPublic := false,
    maxViews := none, currentViews := 0, isActive := true,
    createdAt := 0, updatedAt := 0, createdById := "u4" }

def w4state : SState :=
  { db := some w4row, cacheMeta := none, cacheContent := none,
    dbLogs := [], analytics := [] }

def w4grant : AccessGrant :=
  { secret := { w4row with currentViews := 1 }, shouldDeleteAfterView := true }

def w4post : SState :=
  { db := some { w4row with currentViews := 1, isActive := false },
    cacheMeta := none, cacheContent := none,
    dbLogs := [{ secretId := "s4", userId := none, ipAddress := "ip4",
                 userAgent := "ua4", accessedAt := 20 }],
    analytics := [{ secretId := "s4", userId := none, action := "view",
                    ipAddress := some "ip4" }] }

def w4ctr : CounterStore :=
  [("rate_limit:rate_limit:ip:ip4", { count := 1, expireAt := some 3600020 })]

theorem grant_side_effects_witness :
    w4post.db = some { w4row with currentViews := 1, isActive := false }
    ∧ w4post.cacheMeta = none ∧ w4post.cacheContent = none
    ∧ isGrant (accessCachedSecret w4post [] false "s4" "ip4" "ua4" none none 30).fst
        = false := by
  have h := grant_side_effects w4state [] false "s4" "ip4" "ua4" none none 20
    w4grant w4post w4ctr rfl
  obtain ⟨row, hrow, hlogs, hf, ht⟩ := h
  have hrw : w4row = row := by simpa [w4state] using hrow
  subst hrw
  have h2 := ht rfl
  exact ⟨h2.1, h2.2.1, h2.2.2.1, h2.2.2.2 [] false "s4" "ip4" "ua4" none none 30⟩

def cex2row : Secret :=
  { id := "s2", title := "t2", description := none, content := "c",
    contentType := "TEXT", fileName := none, password := none,
    expiresAt := none, deleteAfterView := false, isPublic := false,
    maxViews := some 5, currentViews := 5, isActive := true,
    createdAt := 0, updatedAt := 0, createdById := "u2" }

def cex2meta : SecretMetadata :=
  { id := "s2", title := "t2", description := none, contentType := "TEXT",
    fileName := none, expiresAt := none, deleteAfterView := false,
    isPublic := false, maxViews := some 5, currentViews := 0,
    isActive := true, createdAt := 0, updatedAt := 0, createdById := "u2",
    hasPassword := false }

def cex2state : SState :=
  { db := some cex2row, cacheMeta := some cex2meta, cacheContent := some "c",
    dbLogs := [], analytics := [] }

/-- C2 counterexample: a store row with `currentViews = 5` and `maxViews = 5`
is exhausted according to the persistent store, yet an access attempt is
granted because the view-limit gate compares the stale cached
`currentViews = 0`; the grant even persists an increment past the limit.  The
store value is therefore not what the gate reads. -/
theorem view_gate_stale_cache_cex :
    cex2state.db = some cex2row
    ∧ cex2row.maxViews = some 5 ∧ cex2row.currentViews = 5
    ∧ isGrant (accessCachedSecret cex2state [] false "s2" "9.9.9.9" "ua" none none 100).fst
        = true
    ∧ (accessCachedSecret cex2state [] false "s2" "9.9.9.9" "ua" none none 100).snd.fst.db
        = some { cex2row with currentViews := 6 } :=
  ⟨rfl, rfl, rfl, rfl, rfl⟩

/-- C2 amended: the `currentViews` value compared against `maxViews` in
`accessCachedSecret` is the one carried by the secret that `getCachedSecret`
returns; when metadata and a non-empty content are cached this is the cached
metadata's (possibly stale) value, not a fresh store read — the outcome of
the view gate depends only on the cached record. -/
theorem view_gate_uses_cached_views (s : SState) (ctr : CounterStore) (fails : Bool)
    (secretId ip ua : String) (uid pw : Option String) (now : Nat)
    (m : SecretMetadata) (c : String)
    (hmeta : s.cacheMeta = some m) (hcontent : s.cacheContent = some c) (hc : c ≠ "")
    (hallow : (checkRateLimit ctr fails ("ip:" ++ ip) 50 3600000 now).fst.success = true) :
    (getCachedSecret s true).fst = some (metadataToSecret m c)
    ∧ ((accessCachedSecret s ctr fails secretId ip ua uid pw now).fst
          = .error .viewLimitReached
        ↔ (jsExpired (metadataToSecret m c) now = false
            ∧ jsViewLimit (metadataToSecret m c) = true)) := by
  have hload : getCachedSecret s true = (some (metadataToSecret m c), s) := by
    simp [getCachedSecret, cachedContentOf, hmeta, hcontent, strTruthy, hc]
  refine ⟨by rw [hload], ?_⟩
  rw [accessCachedSecret_loaded s ctr fails secretId ip ua uid pw now
    (metadataToSecret m c) s hload hallow]
  cases hE : jsExpired (metadataToSecret m c) now <;>
    cases hV : jsViewLimit (metadataToSecret m c) <;>
    cases hA : (metadataToSecret m c).isActive <;>
    cases hP : jsBadPassword (metadataToSecret m c) pw <;>
    cases hdb : s.db <;> simp [hE, hV, hA, hP, hdb]

theorem view_gate_uses_cached_views_witness :
    (getCachedSecret cex2state true).fst = some (metadataToSecret cex2meta "c")
    ∧ (accessCachedSecret cex2state [] false "s2" "ip" "ua" none none 100).fst
        ≠ .error .viewLimitReached := by
  have h := view_gate_uses_cached_views cex2state [] false "s2" "ip" "ua" none none 100
    cex2meta "c" rfl rfl (by decide) (by decide)
  refine ⟨h.1, fun hcontra => ?_⟩
  have hv := (h.2.mp hcontra).2
  simp [jsViewLimit, metadataToSecret, cex2meta] at hv

theorem orUndefStr_eq_self (x : Option String) (hx : x ≠ some "") :
    orUndefStr x = x := by
  cases x with
  | none => rfl
  | some d =>
      have hd : ¬d = "" := fun hdd => hx (by rw [hdd])
      simp [orUndefStr, strTruthy, hd]

theorem orUndefNat_eq_self (x : Option Nat) (hx : x ≠ some 0) :
    orUndefNat x = x := by
  cases x with
  | none => rfl
  | some d =>
      have hd : ¬d = 0 := fun hdd => hx (by rw [hdd])
      simp [orUndefNat, natTruthy, hd]

def cex8input : CacheCreateSecretInput :=
  { title := "t8", description := some "d8", content := "c8", contentType := none,
    fileName := none, password := some "abc", expiresAt := none,
    deleteAfterView := none, isPublic := none, maxViews := none }

def cex8empty : SState :=
  { db := none, cacheMeta := none, cacheContent := none, dbLogs := [], analytics := [] }

def cex8written : Secret :=
  { id := "s8", title := "t8", description := some "d8", content := "c8",
    contentType := "TEXT", fileName := none, password := some "abc",
    expiresAt := none, deleteAfterView := false, isPublic := false,
    maxViews := none, currentViews := 0, isActive := true,
    createdAt := 40, updatedAt := 40, createdById := "u8" }

/-- C8 counterexample: a secret created with password `"abc"` and immediately
read back through the cache-aside repository comes back with `password`
absent — the cache-hit path strips it — so the read-back is not equal to the
written record. -/
theorem roundtrip_password_redacted_cex :
    (createCachedSecret cex8empty [] false "u8" cex8input "ip8" "s8" 40).fst
      = .ok cex8written
    ∧ (getCachedSecret
        (createCachedSecret cex8empty [] false "u8" cex8input "ip8" "s8" 40).snd.fst
        true).fst = some { cex8written with password := none }
    ∧ cex8written.password = some "abc"
    ∧ { cex8written with password := none } ≠ cex8written :=
  ⟨rfl, rfl, rfl, by decide⟩

/-- C8 amended: a secret created through `createCachedSecret` and immediately
read back (no TTL expiry, no intervening write) returns the written record
with only the `password` field stripped to absent, provided the content is
non-empty and the optional description/fileName/maxViews fields do not take
the degenerate JavaScript-falsy values `""` / `0` (which the metadata
projection normalises to absent); the cached metadata's `hasPassword` flag is the
truthiness of the stored password, so it is true exactly when a non-empty
password was set. -/
theorem create_read_roundtrip (s : SState) (ctr : CounterStore) (fails : Bool)
    (userId : String) (input : CacheCreateSecretInput) (ipAddress newId : String)
    (now : Nat) (written : Secret) (s2 : SState) (ctr2 : CounterStore)
    (h : createCachedSecret s ctr fails userId input ipAddress newId now
          = (.ok written, s2, ctr2))
    (hcont : input.content ≠ "")
    (hdesc : input.description ≠ some "")
    (hfile : input.fileName ≠ some "")
    (hmax : input.maxViews ≠ some 0) :
    s2.db = some written
    ∧ (getCachedSecret s2 true).fst = some { written with password := none }
    ∧ written.password = input.password
    ∧ s2.cacheMeta = some (dbSecretToMetadata written)
    ∧ (dbSecretToMetadata written).hasPassword = strTruthy input.password := by
  rcases hcr : checkRateLimit ctr fails ("user:" ++ userId) 10 3600000 now with ⟨rlr, ctr1⟩
  unfold createCachedSecret at h
  rw [hcr] at h
  cases hs : rlr.success
  · simp [hs] at h
  · simp only [hs, if_true, Prod.mk.injEq, Except.ok.injEq] at h
    obtain ⟨hw, hs2, hctr⟩ := h
    subst hw
    subst hs2
    have hct : strTruthy (some input.content) = true := by
      simp [strTruthy, hcont]
    refine ⟨rfl, ?_, rfl, rfl, rfl⟩
    simp [getCachedSecret, cachedContentOf, hct, metadataToSecret,
          dbSecretToMetadata, orUndefStr_eq_self _ hdesc,
          orUndefStr_eq_self _ hfile, orUndefNat_eq_self _ hmax]

def cex8post : SState :=
  (createCachedSecret cex8empty [] false "u8" cex8input "ip8" "s8" 40).snd.fst

def cex8ctr : CounterStore :=
  (createCachedSecret cex8empty [] false "u8" cex8input "ip8" "s8" 40).snd.snd

theorem create_read_roundtrip_witness :
    (getCachedSecret cex8post true).fst = some { cex8written with password := none }
    ∧ cex8post.cacheMeta = some (dbSecretToMetadata cex8written)
    ∧ (dbSecretToMetadata cex8written).hasPassword = true := by
  have h := create_read_roundtrip cex8empty [] false "u8" cex8input "ip8" "s8" 40
    cex8written cex8post cex8ctr rfl (by decide) (by decide) (by decide) (by decide)
  exact ⟨h.2.1, h.2.2.2.1, h.2.2.2.2⟩

end SecureShare
